import Mathlib

/-!
Shallow embedding of the Frontapp MCP server (`src/index.ts`).

The server exposes a catalog of named tool operations.  Each invocation is
routed by a `switch` on the operation name to a private adapter method that
issues exactly one axios HTTP request against the Frontapp REST API.  We embed:

* the JSON-ish value universe flowing through the untyped `params` objects;
* each adapter method as a function from its inputs to the single
  `HttpRequest` it issues (method, templated path, query params, body);
* the `CallToolRequestSchema` handler: the `switch` dispatch, the awaited
  remote outcome, and the surrounding `try`/`catch` that normalises every
  thrown error into an error-flagged text envelope;
* the `ReadResourceRequestSchema` handler, which has no `catch`;
* the startup credential check at the bottom of the file.

The remote API is represented by an oracle `Remote : HttpRequest → RemoteOutcome`
supplied to the handler, so theorems can quantify over remote behaviours.
-/

/-- JSON-ish values carried in the loosely typed `params` objects.
`Option Value` stands for a possibly-`undefined` JavaScript value
(`none` = `undefined`). -/
inductive Value where
  | str : String → Value
  | num : Int → Value
  | bool : Bool → Value
  | arr : List Value → Value
  | null : Value

mutual

/-- JavaScript template-literal stringification used when a value is
interpolated into a path template, for example `/conversations/${id}`. -/
def Value.interp : Value → String
  | .str s => s
  | .num n => toString n
  | .bool b => cond b ("true") ("false")
  | .arr vs => Value.interpList vs
  | .null => ("null")

/-- Array stringification: JS `Array.prototype.toString` joins with commas. -/
def Value.interpList : List Value → String
  | [] => ""
  | [v] => Value.interp v
  | v :: vs => Value.interp v ++ "," ++ Value.interpList vs

end

/-- Interpolating a possibly-`undefined` value: `${undefined}` renders as
the string `undefined` in JavaScript. -/
def interpOpt : Option Value → String
  | some v => v.interp
  | none => ("undefined")

mutual

/-- Compact JSON serialisation, modelling `JSON.stringify` up to whitespace
and string escaping (the handler pretty-prints with indent 2; no claim
depends on the concrete spacing). -/
def Value.stringify : Value → String
  | .str s => "\x22" ++ s ++ "\x22"
  | .num n => toString n
  | .bool b => cond b ("true") ("false")
  | .arr vs => "[" ++ Value.stringifyList vs ++ "]"
  | .null => ("null")

/-- Serialisation of an array's elements, comma separated. -/
def Value.stringifyList : List Value → String
  | [] => ""
  | [v] => Value.stringify v
  | v :: vs => Value.stringify v ++ "," ++ Value.stringifyList vs

end

/-- A loosely typed input object (`typedArgs` in the source): an association
list from field name to value.  A key that is absent models an `undefined`
field. -/
abbrev Input := List (String × Value)

/-- Field access `params.foo` on the loosely typed input object. -/
def jsGet (params : Input) (k : String) : Option Value :=
  List.lookup k params

/-- Rest-destructuring `const { k, ...data } = params`: `data` is `params`
without the field `k`. -/
def eraseKey (params : Input) (k : String) : Input :=
  params.filter (fun p => p.1 != k)

/-- One optional field of a JS object literal such as `{ version, ...data }`:
a property whose value is `undefined` disappears when axios serialises the
body (`JSON.stringify` drops it), so it contributes nothing. -/
def optField (k : String) (v : Option Value) : Input :=
  match v with
  | some w => [(k, w)]
  | none => []

/-- HTTP methods used by the adapters. -/
inductive Method where
  | get | post | patch | put | delete
deriving DecidableEq

/-- The body of an outbound request: absent, a JSON object, or a raw
forwarded value (`syncApplicationMessageTemplate` sends the `template`
value itself as the body). -/
inductive Body where
  | empty : Body
  | obj : Input → Body
  | raw : Value → Body

/-- The single outbound HTTP request an adapter issues: method, concrete
path (template with interpolated segments), axios `params` (query string)
and body. -/
structure HttpRequest where
  method : Method
  path : String
  query : Input
  body : Body

/-- The field names of a request body (empty for absent or raw bodies). -/
def Body.fieldNames : Body → List String
  | .empty => []
  | .obj fs => fs.map Prod.fst
  | .raw _ => []

/-- The field names of a request's query string. -/
def HttpRequest.queryNames (r : HttpRequest) : List String :=
  r.query.map Prod.fst

/-! ### Axios call forms

Each constructor mirrors one way the source invokes `this.axiosInstance`. -/

/-- `axiosInstance.get(path, { params })`. -/
def axiosGetQ (path : String) (params : Input) : HttpRequest :=
  { method := Method.get, path := path, query := params, body := Body.empty }

/-- `axiosInstance.get(path)` with no query. -/
def axiosGet (path : String) : HttpRequest :=
  { method := Method.get, path := path, query := [], body := Body.empty }

/-- `axiosInstance.post(path, data)` with a JSON object body. -/
def axiosPost (path : String) (data : Input) : HttpRequest :=
  { method := Method.post, path := path, query := [], body := Body.obj data }

/-- `axiosInstance.post(path)` with no body. -/
def axiosPostEmpty (path : String) : HttpRequest :=
  { method := Method.post, path := path, query := [], body := Body.empty }

/-- `axiosInstance.patch(path, data)`. -/
def axiosPatch (path : String) (data : Input) : HttpRequest :=
  { method := Method.patch, path := path, query := [], body := Body.obj data }

/-- `axiosInstance.put(path, data)` with a JSON object body. -/
def axiosPut (path : String) (data : Input) : HttpRequest :=
  { method := Method.put, path := path, query := [], body := Body.obj data }

/-- `axiosInstance.put(path, value)` forwarding a raw value as body
(an `undefined` value sends no body). -/
def axiosPutRaw (path : String) (v : Option Value) : HttpRequest :=
  { method := Method.put, path := path, query := [],
    body := match v with
            | some w => Body.raw w
            | none => Body.empty }

/-- `axiosInstance.delete(path)` with no body. -/
def axiosDelete (path : String) : HttpRequest :=
  { method := Method.delete, path := path, query := [], body := Body.empty }

/-- `axiosInstance.delete(path, { data })`: a DELETE carrying a JSON body. -/
def axiosDeleteData (path : String) (data : Input) : HttpRequest :=
  { method := Method.delete, path := path, query := [], body := Body.obj data }

/-! ### Adapter methods

One definition per private method of `FrontappMCPServer`, in source order.
A method taking a single `foo: string` argument receives here the possibly
`undefined` field the dispatcher extracts (`typedArgs.foo`), interpolated
into the path exactly as the template literal would. -/

def listConversations (params : Input) : HttpRequest :=
  axiosGetQ ("/conversations") params

def getConversation (conversationId : Option Value) : HttpRequest :=
  axiosGet ("/conversations/" ++ interpOpt conversationId)

def searchConversations (query limit : Option Value) : HttpRequest :=
  axiosGetQ ("/conversations/search") (optField ("q") query ++ optField ("limit") limit)

def updateConversation (params : Input) : HttpRequest :=
  axiosPatch ("/conversations/" ++ interpOpt (jsGet params ("conversation_id")))
    (eraseKey params ("conversation_id"))

def listConversationMessages (params : Input) : HttpRequest :=
  axiosGetQ ("/conversations/" ++ interpOpt (jsGet params ("conversation_id")) ++ "/messages")
    (eraseKey params ("conversation_id"))

def getMessage (messageId : Option Value) : HttpRequest :=
  axiosGet ("/messages/" ++ interpOpt messageId)

def sendMessage (params : Input) : HttpRequest :=
  axiosPost ("/channels/" ++ interpOpt (jsGet params ("channel_id")) ++ "/messages")
    (eraseKey params ("channel_id"))

/-- JS strict equality `type === 'comment'`: true only when the value is
exactly the string `comment`. -/
def isCommentType : Option Value → Bool
  | some (Value.str s) => s == ("comment")
  | _ => false

def replyToConversation (params : Input) : HttpRequest :=
  axiosPost ("/conversations/" ++ interpOpt (jsGet params ("conversation_id")) ++ "/" ++
      (cond (isCommentType (jsGet params ("type"))) ("comments") ("messages")))
    (eraseKey (eraseKey params ("conversation_id")) ("type"))

def listContacts (params : Input) : HttpRequest :=
  axiosGetQ ("/contacts") params

def getContact (contactId : Option Value) : HttpRequest :=
  axiosGet ("/contacts/" ++ interpOpt contactId)

def createContact (params : Input) : HttpRequest :=
  axiosPost ("/contacts") params

def updateContact (params : Input) : HttpRequest :=
  axiosPatch ("/contacts/" ++ interpOpt (jsGet params ("contact_id")))
    (eraseKey params ("contact_id"))

def listTeammates (params : Input) : HttpRequest :=
  axiosGetQ ("/teammates") params

def getTeammate (teammateId : Option Value) : HttpRequest :=
  axiosGet ("/teammates/" ++ interpOpt teammateId)

def listTags (params : Input) : HttpRequest :=
  axiosGetQ ("/tags") params

def createTag (params : Input) : HttpRequest :=
  axiosPost ("/tags") params

def listInboxes (params : Input) : HttpRequest :=
  axiosGetQ ("/inboxes") params

def getInbox (inboxId : Option Value) : HttpRequest :=
  axiosGet ("/inboxes/" ++ interpOpt inboxId)

def listConversationComments (conversationId : Option Value) : HttpRequest :=
  axiosGet ("/conversations/" ++ interpOpt conversationId ++ "/comments")

def addComment (params : Input) : HttpRequest :=
  axiosPost ("/conversations/" ++ interpOpt (jsGet params ("conversation_id")) ++ "/comments")
    (eraseKey params ("conversation_id"))

def getAnalytics (params : Input) : HttpRequest :=
  axiosGetQ ("/analytics") params

def listAccounts (params : Input) : HttpRequest :=
  axiosGetQ ("/accounts") params

def createAccount (params : Input) : HttpRequest :=
  axiosPost ("/accounts") params

def getAccount (accountId : Option Value) : HttpRequest :=
  axiosGet ("/accounts/" ++ interpOpt accountId)

def updateAccount (params : Input) : HttpRequest :=
  axiosPatch ("/accounts/" ++ interpOpt (jsGet params ("account_id")))
    (eraseKey params ("account_id"))

def deleteAccount (accountId : Option Value) : HttpRequest :=
  axiosDelete ("/accounts/" ++ interpOpt accountId)

def listAccountContacts (params : Input) : HttpRequest :=
  axiosGetQ ("/accounts/" ++ interpOpt (jsGet params ("account_id")) ++ "/contacts")
    (eraseKey params ("account_id"))

def addContactToAccount (params : Input) : HttpRequest :=
  axiosPost ("/accounts/" ++ interpOpt (jsGet params ("account_id")) ++ "/contacts")
    (optField ("contact_ids") (jsGet params ("contact_ids")))

def removeContactFromAccount (params : Input) : HttpRequest :=
  axiosDeleteData ("/accounts/" ++ interpOpt (jsGet params ("account_id")) ++ "/contacts")
    (optField ("contact_ids") (jsGet params ("contact_ids")))

def deleteContact (contactId : Option Value) : HttpRequest :=
  axiosDelete ("/contacts/" ++ interpOpt contactId)

def mergeContacts (params : Input) : HttpRequest :=
  axiosPost ("/contacts/merge")
    (optField ("source_contact_id") (jsGet params ("source_contact_id")) ++
      optField ("target_contact_id") (jsGet params ("target_contact_id")))

def listContactConversations (params : Input) : HttpRequest :=
  axiosGetQ ("/contacts/" ++ interpOpt (jsGet params ("contact_id")) ++ "/conversations")
    (eraseKey params ("contact_id"))

def listContactNotes (contactId : Option Value) : HttpRequest :=
  axiosGet ("/contacts/" ++ interpOpt contactId ++ "/notes")

def addContactNote (params : Input) : HttpRequest :=
  axiosPost ("/contacts/" ++ interpOpt (jsGet params ("contact_id")) ++ "/notes")
    (eraseKey params ("contact_id"))

def addContactHandle (params : Input) : HttpRequest :=
  axiosPost ("/contacts/" ++ interpOpt (jsGet params ("contact_id")) ++ "/handles")
    (optField ("handle") (jsGet params ("handle")) ++ optField ("source") (jsGet params ("source")))

def deleteContactHandle (params : Input) : HttpRequest :=
  axiosDeleteData ("/contacts/" ++ interpOpt (jsGet params ("contact_id")) ++ "/handles")
    (optField ("handle") (jsGet params ("handle")) ++ optField ("source") (jsGet params ("source")))

def listTeammateContacts (params : Input) : HttpRequest :=
  axiosGetQ ("/teammates/" ++ interpOpt (jsGet params ("teammate_id")) ++ "/contacts")
    (eraseKey params ("teammate_id"))

def createTeammateContact (params : Input) : HttpRequest :=
  axiosPost ("/teammates/" ++ interpOpt (jsGet params ("teammate_id")) ++ "/contacts")
    (eraseKey params ("teammate_id"))

def listTeamContacts (params : Input) : HttpRequest :=
  axiosGetQ ("/teams/" ++ interpOpt (jsGet params ("team_id")) ++ "/contacts")
    (eraseKey params ("team_id"))

def listChannels (params : Input) : HttpRequest :=
  axiosGetQ ("/channels") params

def createChannel (params : Input) : HttpRequest :=
  axiosPost ("/channels") params

def getChannel (channelId : Option Value) : HttpRequest :=
  axiosGet ("/channels/" ++ interpOpt channelId)

def updateChannel (params : Input) : HttpRequest :=
  axiosPatch ("/channels/" ++ interpOpt (jsGet params ("channel_id")))
    (eraseKey params ("channel_id"))

def validateChannel (channelId : Option Value) : HttpRequest :=
  axiosPostEmpty ("/channels/" ++ interpOpt channelId ++ "/validate")

def listTeammateChannels (teammateId : Option Value) : HttpRequest :=
  axiosGet ("/teammates/" ++ interpOpt teammateId ++ "/channels")

def listTeamChannels (teamId : Option Value) : HttpRequest :=
  axiosGet ("/teams/" ++ interpOpt teamId ++ "/channels")

def syncInboundMessage (params : Input) : HttpRequest :=
  axiosPost ("/channels/" ++ interpOpt (jsGet params ("channel_id")) ++ "/inbound_messages")
    (eraseKey params ("channel_id"))

def syncOutboundMessage (params : Input) : HttpRequest :=
  axiosPost ("/channels/" ++ interpOpt (jsGet params ("channel_id")) ++ "/outbound_messages")
    (eraseKey params ("channel_id"))

def updateExternalMessageStatus (params : Input) : HttpRequest :=
  axiosPut ("/channels/" ++ interpOpt (jsGet params ("channel_id")) ++ "/messages/" ++
      interpOpt (jsGet params ("message_id")) ++ "/status")
    (optField ("status") (jsGet params ("status")))

def syncApplicationMessageTemplate (params : Input) : HttpRequest :=
  axiosPutRaw ("/channels/" ++ interpOpt (jsGet params ("channel_id")) ++
      "/application_message_templates")
    (jsGet params ("template"))

def getComment (commentId : Option Value) : HttpRequest :=
  axiosGet ("/comments/" ++ interpOpt commentId)

def updateComment (params : Input) : HttpRequest :=
  axiosPatch ("/comments/" ++ interpOpt (jsGet params ("comment_id")))
    (optField ("body") (jsGet params ("body")))

def listCommentMentions (commentId : Option Value) : HttpRequest :=
  axiosGet ("/comments/" ++ interpOpt commentId ++ "/mentions")

def addCommentReply (params : Input) : HttpRequest :=
  axiosPost ("/comments/" ++ interpOpt (jsGet params ("comment_id")) ++ "/replies")
    (eraseKey params ("comment_id"))

def listContactGroups (params : Input) : HttpRequest :=
  axiosGetQ ("/contact_groups") params

def createContactGroup (params : Input) : HttpRequest :=
  axiosPost ("/contact_groups") params

def deleteContactGroup (groupId : Option Value) : HttpRequest :=
  axiosDelete ("/contact_groups/" ++ interpOpt groupId)

def listGroupContacts (groupId : Option Value) : HttpRequest :=
  axiosGet ("/contact_groups/" ++ interpOpt groupId ++ "/contacts")

def addContactsToGroup (params : Input) : HttpRequest :=
  axiosPost ("/contact_groups/" ++ interpOpt (jsGet params ("group_id")) ++ "/contacts")
    (optField ("contact_ids") (jsGet params ("contact_ids")))

def removeContactsFromGroup (params : Input) : HttpRequest :=
  axiosDeleteData ("/contact_groups/" ++ interpOpt (jsGet params ("group_id")) ++ "/contacts")
    (optField ("contact_ids") (jsGet params ("contact_ids")))

def listTeammateGroups (teammateId : Option Value) : HttpRequest :=
  axiosGet ("/teammates/" ++ interpOpt teammateId ++ "/contact_groups")

def createTeammateGroup (params : Input) : HttpRequest :=
  axiosPost ("/teammates/" ++ interpOpt (jsGet params ("teammate_id")) ++ "/contact_groups")
    (eraseKey params ("teammate_id"))

def listTeamGroups (teamId : Option Value) : HttpRequest :=
  axiosGet ("/teams/" ++ interpOpt teamId ++ "/contact_groups")

def createTeamGroup (params : Input) : HttpRequest :=
  axiosPost ("/teams/" ++ interpOpt (jsGet params ("team_id")) ++ "/contact_groups")
    (eraseKey params ("team_id"))

def listContactLists (params : Input) : HttpRequest :=
  axiosGetQ ("/contact_lists") params

def createContactList (params : Input) : HttpRequest :=
  axiosPost ("/contact_lists") params

def deleteContactList (listId : Option Value) : HttpRequest :=
  axiosDelete ("/contact_lists/" ++ interpOpt listId)

def listContactListContacts (params : Input) : HttpRequest :=
  axiosGetQ ("/contact_lists/" ++ interpOpt (jsGet params ("list_id")) ++ "/contacts")
    (eraseKey params ("list_id"))

def addContactsToList (params : Input) : HttpRequest :=
  axiosPost ("/contact_lists/" ++ interpOpt (jsGet params ("list_id")) ++ "/contacts")
    (optField ("contact_ids") (jsGet params ("contact_ids")))

def removeContactsFromList (params : Input) : HttpRequest :=
  axiosDeleteData ("/contact_lists/" ++ interpOpt (jsGet params ("list_id")) ++ "/contacts")
    (optField ("contact_ids") (jsGet params ("contact_ids")))

def listTeammateContactLists (teammateId : Option Value) : HttpRequest :=
  axiosGet ("/teammates/" ++ interpOpt teammateId ++ "/contact_lists")

def createTeammateContactList (params : Input) : HttpRequest :=
  axiosPost ("/teammates/" ++ interpOpt (jsGet params ("teammate_id")) ++ "/contact_lists")
    (eraseKey params ("teammate_id"))

def listTeamContactLists (teamId : Option Value) : HttpRequest :=
  axiosGet ("/teams/" ++ interpOpt teamId ++ "/contact_lists")

def createTeamContactList (params : Input) : HttpRequest :=
  axiosPost ("/teams/" ++ interpOpt (jsGet params ("team_id")) ++ "/contact_lists")
    (eraseKey params ("team_id"))

def createDiscussionConversation (params : Input) : HttpRequest :=
  axiosPost ("/conversations") params

def updateConversationAssignee (params : Input) : HttpRequest :=
  axiosPut ("/conversations/" ++ interpOpt (jsGet params ("conversation_id")) ++ "/assignee")
    (optField ("assignee_id") (jsGet params ("assignee_id")))

def listConversationEvents (params : Input) : HttpRequest :=
  axiosGetQ ("/conversations/" ++ interpOpt (jsGet params ("conversation_id")) ++ "/events")
    (eraseKey params ("conversation_id"))

def listConversationFollowers (conversationId : Option Value) : HttpRequest :=
  axiosGet ("/conversations/" ++ interpOpt conversationId ++ "/followers")

def addConversationFollowers (params : Input) : HttpRequest :=
  axiosPost ("/conversations/" ++ interpOpt (jsGet params ("conversation_id")) ++ "/followers")
    (optField ("teammate_ids") (jsGet params ("teammate_ids")))

def deleteConversationFollowers (params : Input) : HttpRequest :=
  axiosDeleteData ("/conversations/" ++ interpOpt (jsGet params ("conversation_id")) ++ "/followers")
    (optField ("teammate_ids") (jsGet params ("teammate_ids")))

def listConversationInboxes (conversationId : Option Value) : HttpRequest :=
  axiosGet ("/conversations/" ++ interpOpt conversationId ++ "/inboxes")

def addConversationLink (params : Input) : HttpRequest :=
  axiosPost ("/conversations/" ++ interpOpt (jsGet params ("conversation_id")) ++ "/links")
    (optField ("link_ids") (jsGet params ("link_ids")))

def removeConversationLinks (params : Input) : HttpRequest :=
  axiosDeleteData ("/conversations/" ++ interpOpt (jsGet params ("conversation_id")) ++ "/links")
    (optField ("link_ids") (jsGet params ("link_ids")))

def updateConversationReminders (params : Input) : HttpRequest :=
  axiosPatch ("/conversations/" ++ interpOpt (jsGet params ("conversation_id")) ++ "/reminders")
    (eraseKey params ("conversation_id"))

def addConversationTag (params : Input) : HttpRequest :=
  axiosPost ("/conversations/" ++ interpOpt (jsGet params ("conversation_id")) ++ "/tags")
    (optField ("tag_ids") (jsGet params ("tag_ids")))

def removeConversationTag (params : Input) : HttpRequest :=
  axiosDeleteData ("/conversations/" ++ interpOpt (jsGet params ("conversation_id")) ++ "/tags")
    (optField ("tag_ids") (jsGet params ("tag_ids")))

def listAccountCustomFields : HttpRequest :=
  axiosGet ("/accounts/custom_fields")

def listContactCustomFields : HttpRequest :=
  axiosGet ("/contacts/custom_fields")

def listConversationCustomFields : HttpRequest :=
  axiosGet ("/conversations/custom_fields")

def listCustomFields : HttpRequest :=
  axiosGet ("/custom_fields")

def listInboxCustomFields : HttpRequest :=
  axiosGet ("/inboxes/custom_fields")

def listLinkCustomFields : HttpRequest :=
  axiosGet ("/links/custom_fields")

def listTeammateCustomFields : HttpRequest :=
  axiosGet ("/teammates/custom_fields")

def createDraft (params : Input) : HttpRequest :=
  axiosPost ("/drafts") params

def listConversationDrafts (conversationId : Option Value) : HttpRequest :=
  axiosGet ("/conversations/" ++ interpOpt conversationId ++ "/drafts")

def createDraftReply (params : Input) : HttpRequest :=
  axiosPost ("/channels/" ++ interpOpt (jsGet params ("channel_id")) ++ "/drafts")
    (eraseKey params ("channel_id"))

def deleteDraft (params : Input) : HttpRequest :=
  axiosDeleteData ("/drafts/" ++ interpOpt (jsGet params ("draft_id")))
    (optField ("version") (jsGet params ("version")))

def editDraft (params : Input) : HttpRequest :=
  axiosPatch ("/drafts/" ++ interpOpt (jsGet params ("draft_id")))
    (optField ("version") (jsGet params ("version")) ++
      eraseKey (eraseKey params ("draft_id")) ("version"))

def listEvents (params : Input) : HttpRequest :=
  axiosGetQ ("/events") params

def getEvent (eventId : Option Value) : HttpRequest :=
  axiosGet ("/events/" ++ interpOpt eventId)

def createInbox (params : Input) : HttpRequest :=
  axiosPost ("/inboxes") params

def listInboxChannels (inboxId : Option Value) : HttpRequest :=
  axiosGet ("/inboxes/" ++ interpOpt inboxId ++ "/channels")

def listInboxConversations (params : Input) : HttpRequest :=
  axiosGetQ ("/inboxes/" ++ interpOpt (jsGet params ("inbox_id")) ++ "/conversations")
    (eraseKey params ("inbox_id"))

def listInboxAccess (inboxId : Option Value) : HttpRequest :=
  axiosGet ("/inboxes/" ++ interpOpt inboxId ++ "/access")

def addInboxAccess (params : Input) : HttpRequest :=
  axiosPost ("/inboxes/" ++ interpOpt (jsGet params ("inbox_id")) ++ "/access")
    (optField ("teammate_ids") (jsGet params ("teammate_ids")))

def removeInboxAccess (params : Input) : HttpRequest :=
  axiosDeleteData ("/inboxes/" ++ interpOpt (jsGet params ("inbox_id")) ++ "/access")
    (optField ("teammate_ids") (jsGet params ("teammate_ids")))

def listTeamInboxes (teamId : Option Value) : HttpRequest :=
  axiosGet ("/teams/" ++ interpOpt teamId ++ "/inboxes")

def createTeamInbox (params : Input) : HttpRequest :=
  axiosPost ("/teams/" ++ interpOpt (jsGet params ("team_id")) ++ "/inboxes")
    (eraseKey params ("team_id"))

def receiveCustomMessage (params : Input) : HttpRequest :=
  axiosPost ("/channels/" ++ interpOpt (jsGet params ("channel_id")) ++ "/incoming_messages")
    (eraseKey params ("channel_id"))

def importMessage (params : Input) : HttpRequest :=
  axiosPost ("/channels/" ++ interpOpt (jsGet params ("channel_id")) ++ "/import")
    (eraseKey params ("channel_id"))

def getMessageSeenStatus (messageId : Option Value) : HttpRequest :=
  axiosGet ("/messages/" ++ interpOpt messageId ++ "/seen")

def markMessageSeen (messageId : Option Value) : HttpRequest :=
  axiosPostEmpty ("/messages/" ++ interpOpt messageId ++ "/seen")

def listMessageTemplateFolders (params : Input) : HttpRequest :=
  axiosGetQ ("/message_template_folders") params

def createMessageTemplateFolder (params : Input) : HttpRequest :=
  axiosPost ("/message_template_folders") params

def getMessageTemplateFolder (folderId : Option Value) : HttpRequest :=
  axiosGet ("/message_template_folders/" ++ interpOpt folderId)

def updateMessageTemplateFolder (params : Input) : HttpRequest :=
  axiosPatch ("/message_template_folders/" ++ interpOpt (jsGet params ("folder_id")))
    (eraseKey params ("folder_id"))

def deleteMessageTemplateFolder (folderId : Option Value) : HttpRequest :=
  axiosDelete ("/message_template_folders/" ++ interpOpt folderId)

def listChildFolders (folderId : Option Value) : HttpRequest :=
  axiosGet ("/message_template_folders/" ++ interpOpt folderId ++ "/children")

def createChildFolder (params : Input) : HttpRequest :=
  axiosPost ("/message_template_folders/" ++ interpOpt (jsGet params ("folder_id")) ++ "/children")
    (eraseKey params ("folder_id"))

def listTeammateFolders (teammateId : Option Value) : HttpRequest :=
  axiosGet ("/teammates/" ++ interpOpt teammateId ++ "/message_template_folders")

def createTeammateFolder (params : Input) : HttpRequest :=
  axiosPost ("/teammates/" ++ interpOpt (jsGet params ("teammate_id")) ++
      "/message_template_folders")
    (eraseKey params ("teammate_id"))

def listTeamFolders (teamId : Option Value) : HttpRequest :=
  axiosGet ("/teams/" ++ interpOpt teamId ++ "/message_template_folders")

def listMessageTemplates (params : Input) : HttpRequest :=
  axiosGetQ ("/message_templates") params

def createMessageTemplate (params : Input) : HttpRequest :=
  axiosPost ("/message_templates") params

def getMessageTemplate (templateId : Option Value) : HttpRequest :=
  axiosGet ("/message_templates/" ++ interpOpt templateId)

def updateMessageTemplate (params : Input) : HttpRequest :=
  axiosPatch ("/message_templates/" ++ interpOpt (jsGet params ("template_id")))
    (eraseKey params ("template_id"))

def deleteMessageTemplate (templateId : Option Value) : HttpRequest :=
  axiosDelete ("/message_templates/" ++ interpOpt templateId)

def listChildTemplates (templateId : Option Value) : HttpRequest :=
  axiosGet ("/message_templates/" ++ interpOpt templateId ++ "/children")

def createChildTemplate (params : Input) : HttpRequest :=
  axiosPost ("/message_templates/" ++ interpOpt (jsGet params ("template_id")) ++ "/children")
    (eraseKey params ("template_id"))

def getTag (tagId : Option Value) : HttpRequest :=
  axiosGet ("/tags/" ++ interpOpt tagId)

def updateTag (params : Input) : HttpRequest :=
  axiosPatch ("/tags/" ++ interpOpt (jsGet params ("tag_id")))
    (eraseKey params ("tag_id"))

def deleteTag (tagId : Option Value) : HttpRequest :=
  axiosDelete ("/tags/" ++ interpOpt tagId)

def listTagChildren (tagId : Option Value) : HttpRequest :=
  axiosGet ("/tags/" ++ interpOpt tagId ++ "/children")

def createChildTag (params : Input) : HttpRequest :=
  axiosPost ("/tags/" ++ interpOpt (jsGet params ("tag_id")) ++ "/children")
    (eraseKey params ("tag_id"))

def listTaggedConversations (params : Input) : HttpRequest :=
  axiosGetQ ("/tags/" ++ interpOpt (jsGet params ("tag_id")) ++ "/conversations")
    (eraseKey params ("tag_id"))

def listTeammateTags (teammateId : Option Value) : HttpRequest :=
  axiosGet ("/teammates/" ++ interpOpt teammateId ++ "/tags")

def createTeammateTag (params : Input) : HttpRequest :=
  axiosPost ("/teammates/" ++ interpOpt (jsGet params ("teammate_id")) ++ "/tags")
    (eraseKey params ("teammate_id"))

def listTeamTags (teamId : Option Value) : HttpRequest :=
  axiosGet ("/teams/" ++ interpOpt teamId ++ "/tags")

def createTeamTag (params : Input) : HttpRequest :=
  axiosPost ("/teams/" ++ interpOpt (jsGet params ("team_id")) ++ "/tags")
    (eraseKey params ("team_id"))

def updateTeammate (params : Input) : HttpRequest :=
  axiosPatch ("/teammates/" ++ interpOpt (jsGet params ("teammate_id")))
    (eraseKey params ("teammate_id"))

def listTeammateConversations (params : Input) : HttpRequest :=
  axiosGetQ ("/teammates/" ++ interpOpt (jsGet params ("teammate_id")) ++ "/conversations")
    (eraseKey params ("teammate_id"))

def listTeammateInboxes (teammateId : Option Value) : HttpRequest :=
  axiosGet ("/teammates/" ++ interpOpt teammateId ++ "/inboxes")

/-! ### Remote outcomes and thrown errors

An adapter `await`s its axios call; axios resolves with decoded data or
rejects with an error object.  The dispatcher's `catch` reads
`error.response?.data?.message || error.message`. -/

/-- What the remote API does with one outbound request. -/
inductive RemoteOutcome where
  | ok : Value → RemoteOutcome
  | httpError : Nat → Option String → RemoteOutcome
  | transportError : String → RemoteOutcome

/-- The behaviour of the remote API, as an oracle from requests to outcomes. -/
abbrev Remote := HttpRequest → RemoteOutcome

/-- An error thrown inside the tool-call handler: a local `new Error(...)`
(no `response` property), an axios HTTP-status rejection (whose `message`
is the generic text and whose `response.data.message` is the remote body
message when the body carries one), or an axios transport-level rejection
(no `response` property). -/
inductive ThrownError where
  | jsError : String → ThrownError
  | axiosHttpError : Nat → Option String → ThrownError
  | axiosTransportError : String → ThrownError

/-- Axios's generic message for an HTTP-status rejection. -/
def axiosGenericMessage (status : Nat) : String :=
  "Request failed with status code " ++ toString status

/-- The `catch` block's message extraction
`error.response?.data?.message || error.message`: the remote body message
when present and truthy (a present empty string is falsy in JS), otherwise
the error's own message. -/
def catchMessage : ThrownError → String
  | .jsError m => m
  | .axiosHttpError status bodyMsg =>
      match bodyMsg with
      | some m => cond (m == "") (axiosGenericMessage status) m
      | none => axiosGenericMessage status
  | .axiosTransportError m => m

/-! ### The `CallToolRequestSchema` dispatcher -/

/-- One entry of the dispatch `switch`: the operation's `case` label, the
named segments its adapter interpolates into the URL path template, and the
adapter invocation the `case` arm performs on the loosely typed input. -/
structure OpSpec where
  name : String
  pathArgs : List String
  handler : Input → HttpRequest

/-- Catalog entries `list_conversations` through `add_comment`. -/
def catalogPart1 : List OpSpec :=
  [
    { name := ("list_conversations"), pathArgs := [],
      handler := fun args => listConversations args },
    { name := ("get_conversation"), pathArgs := [("conversation_id")],
      handler := fun args => getConversation (jsGet args ("conversation_id")) },
    { name := ("search_conversations"), pathArgs := [],
      handler := fun args => searchConversations (jsGet args ("query")) (jsGet args ("limit")) },
    { name := ("update_conversation"), pathArgs := [("conversation_id")],
      handler := fun args => updateConversation args },
    { name := ("list_conversation_messages"), pathArgs := [("conversation_id")],
      handler := fun args => listConversationMessages args },
    { name := ("get_message"), pathArgs := [("message_id")],
      handler := fun args => getMessage (jsGet args ("message_id")) },
    { name := ("send_message"), pathArgs := [("channel_id")],
      handler := fun args => sendMessage args },
    { name := ("reply_to_conversation"), pathArgs := [("conversation_id")],
      handler := fun args => replyToConversation args },
    { name := ("list_contacts"), pathArgs := [],
      handler := fun args => listContacts args },
    { name := ("get_contact"), pathArgs := [("contact_id")],
      handler := fun args => getContact (jsGet args ("contact_id")) },
    { name := ("create_contact"), pathArgs := [],
      handler := fun args => createContact args },
    { name := ("update_contact"), pathArgs := [("contact_id")],
      handler := fun args => updateContact args },
    { name := ("list_teammates"), pathArgs := [],
      handler := fun args => listTeammates args },
    { name := ("get_teammate"), pathArgs := [("teammate_id")],
      handler := fun args => getTeammate (jsGet args ("teammate_id")) },
    { name := ("list_tags"), pathArgs := [],
      handler := fun args => listTags args },
    { name := ("create_tag"), pathArgs := [],
      handler := fun args => createTag args },
    { name := ("list_inboxes"), pathArgs := [],
      handler := fun args => listInboxes args },
    { name := ("get_inbox"), pathArgs := [("inbox_id")],
      handler := fun args => getInbox (jsGet args ("inbox_id")) },
    { name := ("list_conversation_comments"), pathArgs := [("conversation_id")],
      handler := fun args => listConversationComments (jsGet args ("conversation_id")) },
    { name := ("add_comment"), pathArgs := [("conversation_id")],
      handler := fun args => addComment args }
  ]

/-- Catalog entries `get_analytics` through `list_channels`. -/
def catalogPart2 : List OpSpec :=
  [
    { name := ("get_analytics"), pathArgs := [],
      handler := fun args => getAnalytics args },
    { name := ("list_accounts"), pathArgs := [],
      handler := fun args => listAccounts args },
    { name := ("create_account"), pathArgs := [],
      handler := fun args => createAccount args },
    { name := ("get_account"), pathArgs := [("account_id")],
      handler := fun args => getAccount (jsGet args ("account_id")) },
    { name := ("update_account"), pathArgs := [("account_id")],
      handler := fun args => updateAccount args },
    { name := ("delete_account"), pathArgs := [("account_id")],
      handler := fun args => deleteAccount (jsGet args ("account_id")) },
    { name := ("list_account_contacts"), pathArgs := [("account_id")],
      handler := fun args => listAccountContacts args },
    { name := ("add_contact_to_account"), pathArgs := [("account_id")],
      handler := fun args => addContactToAccount args },
    { name := ("remove_contact_from_account"), pathArgs := [("account_id")],
      handler := fun args => removeContactFromAccount args },
    { name := ("delete_contact"), pathArgs := [("contact_id")],
      handler := fun args => deleteContact (jsGet args ("contact_id")) },
    { name := ("merge_contacts"), pathArgs := [],
      handler := fun args => mergeContacts args },
    { name := ("list_contact_conversations"), pathArgs := [("contact_id")],
      handler := fun args => listContactConversations args },
    { name := ("list_contact_notes"), pathArgs := [("contact_id")],
      handler := fun args => listContactNotes (jsGet args ("contact_id")) },
    { name := ("add_contact_note"), pathArgs := [("contact_id")],
      handler := fun args => addContactNote args },
    { name := ("add_contact_handle"), pathArgs := [("contact_id")],
      handler := fun args => addContactHandle args },
    { name := ("delete_contact_handle"), pathArgs := [("contact_id")],
      handler := fun args => deleteContactHandle args },
    { name := ("list_teammate_contacts"), pathArgs := [("teammate_id")],
      handler := fun args => listTeammateContacts args },
    { name := ("create_teammate_contact"), pathArgs := [("teammate_id")],
      handler := fun args => createTeammateContact args },
    { name := ("list_team_contacts"), pathArgs := [("team_id")],
      handler := fun args => listTeamContacts args },
    { name := ("list_channels"), pathArgs := [],
      handler := fun args => listChannels args }
  ]

/-- Catalog entries `create_channel` through `remove_contacts_from_group`. -/
def catalogPart3 : List OpSpec :=
  [
    { name := ("create_channel"), pathArgs := [],
      handler := fun args => createChannel args },
    { name := ("get_channel"), pathArgs := [("channel_id")],
      handler := fun args => getChannel (jsGet args ("channel_id")) },
    { name := ("update_channel"), pathArgs := [("channel_id")],
      handler := fun args => updateChannel args },
    { name := ("validate_channel"), pathArgs := [("channel_id")],
      handler := fun args => validateChannel (jsGet args ("channel_id")) },
    { name := ("list_teammate_channels"), pathArgs := [("teammate_id")],
      handler := fun args => listTeammateChannels (jsGet args ("teammate_id")) },
    { name := ("list_team_channels"), pathArgs := [("team_id")],
      handler := fun args => listTeamChannels (jsGet args ("team_id")) },
    { name := ("sync_inbound_message"), pathArgs := [("channel_id")],
      handler := fun args => syncInboundMessage args },
    { name := ("sync_outbound_message"), pathArgs := [("channel_id")],
      handler := fun args => syncOutboundMessage args },
    { name := ("update_external_message_status"), pathArgs := [("channel_id"), ("message_id")],
      handler := fun args => updateExternalMessageStatus args },
    { name := ("sync_application_message_template"), pathArgs := [("channel_id")],
      handler := fun args => syncApplicationMessageTemplate args },
    { name := ("get_comment"), pathArgs := [("comment_id")],
      handler := fun args => getComment (jsGet args ("comment_id")) },
    { name := ("update_comment"), pathArgs := [("comment_id")],
      handler := fun args => updateComment args },
    { name := ("list_comment_mentions"), pathArgs := [("comment_id")],
      handler := fun args => listCommentMentions (jsGet args ("comment_id")) },
    { name := ("add_comment_reply"), pathArgs := [("comment_id")],
      handler := fun args => addCommentReply args },
    { name := ("list_contact_groups"), pathArgs := [],
      handler := fun args => listContactGroups args },
    { name := ("create_contact_group"), pathArgs := [],
      handler := fun args => createContactGroup args },
    { name := ("delete_contact_group"), pathArgs := [("group_id")],
      handler := fun args => deleteContactGroup (jsGet args ("group_id")) },
    { name := ("list_group_contacts"), pathArgs := [("group_id")],
      handler := fun args => listGroupContacts (jsGet args ("group_id")) },
    { name := ("add_contacts_to_group"), pathArgs := [("group_id")],
      handler := fun args => addContactsToGroup args },
    { name := ("remove_contacts_from_group"), pathArgs := [("group_id")],
      handler := fun args => removeContactsFromGroup args }
  ]

/-- Catalog entries `list_teammate_groups` through `delete_conversation_followers`. -/
def catalogPart4 : List OpSpec :=
  [
    { name := ("list_teammate_groups"), pathArgs := [("teammate_id")],
      handler := fun args => listTeammateGroups (jsGet args ("teammate_id")) },
    { name := ("create_teammate_group"), pathArgs := [("teammate_id")],
      handler := fun args => createTeammateGroup args },
    { name := ("list_team_groups"), pathArgs := [("team_id")],
      handler := fun args => listTeamGroups (jsGet args ("team_id")) },
    { name := ("create_team_group"), pathArgs := [("team_id")],
      handler := fun args => createTeamGroup args },
    { name := ("list_contact_lists"), pathArgs := [],
      handler := fun args => listContactLists args },
    { name := ("create_contact_list"), pathArgs := [],
      handler := fun args => createContactList args },
    { name := ("delete_contact_list"), pathArgs := [("list_id")],
      handler := fun args => deleteContactList (jsGet args ("list_id")) },
    { name := ("list_contact_list_contacts"), pathArgs := [("list_id")],
      handler := fun args => listContactListContacts args },
    { name := ("add_contacts_to_list"), pathArgs := [("list_id")],
      handler := fun args => addContactsToList args },
    { name := ("remove_contacts_from_list"), pathArgs := [("list_id")],
      handler := fun args => removeContactsFromList args },
    { name := ("list_teammate_contact_lists"), pathArgs := [("teammate_id")],
      handler := fun args => listTeammateContactLists (jsGet args ("teammate_id")) },
    { name := ("create_teammate_contact_list"), pathArgs := [("teammate_id")],
      handler := fun args => createTeammateContactList args },
    { name := ("list_team_contact_lists"), pathArgs := [("team_id")],
      handler := fun args => listTeamContactLists (jsGet args ("team_id")) },
    { name := ("create_team_contact_list"), pathArgs := [("team_id")],
      handler := fun args => createTeamContactList args },
    { name := ("create_discussion_conversation"), pathArgs := [],
      handler := fun args => createDiscussionConversation args },
    { name := ("update_conversation_assignee"), pathArgs := [("conversation_id")],
      handler := fun args => updateConversationAssignee args },
    { name := ("list_conversation_events"), pathArgs := [("conversation_id")],
      handler := fun args => listConversationEvents args },
    { name := ("list_conversation_followers"), pathArgs := [("conversation_id")],
      handler := fun args => listConversationFollowers (jsGet args ("conversation_id")) },
    { name := ("add_conversation_followers"), pathArgs := [("conversation_id")],
      handler := fun args => addConversationFollowers args },
    { name := ("delete_conversation_followers"), pathArgs := [("conversation_id")],
      handler := fun args => deleteConversationFollowers args }
  ]

/-- Catalog entries `list_conversation_inboxes` through `get_event`. -/
def catalogPart5 : List OpSpec :=
  [
    { name := ("list_conversation_inboxes"), pathArgs := [("conversation_id")],
      handler := fun args => listConversationInboxes (jsGet args ("conversation_id")) },
    { name := ("add_conversation_link"), pathArgs := [("conversation_id")],
      handler := fun args => addConversationLink args },
    { name := ("remove_conversation_links"), pathArgs := [("conversation_id")],
      handler := fun args => removeConversationLinks args },
    { name := ("update_conversation_reminders"), pathArgs := [("conversation_id")],
      handler := fun args => updateConversationReminders args },
    { name := ("add_conversation_tag"), pathArgs := [("conversation_id")],
      handler := fun args => addConversationTag args },
    { name := ("remove_conversation_tag"), pathArgs := [("conversation_id")],
      handler := fun args => removeConversationTag args },
    { name := ("list_account_custom_fields"), pathArgs := [],
      handler := fun _ => listAccountCustomFields },
    { name := ("list_contact_custom_fields"), pathArgs := [],
      handler := fun _ => listContactCustomFields },
    { name := ("list_conversation_custom_fields"), pathArgs := [],
      handler := fun _ => listConversationCustomFields },
    { name := ("list_custom_fields"), pathArgs := [],
      handler := fun _ => listCustomFields },
    { name := ("list_inbox_custom_fields"), pathArgs := [],
      handler := fun _ => listInboxCustomFields },
    { name := ("list_link_custom_fields"), pathArgs := [],
      handler := fun _ => listLinkCustomFields },
    { name := ("list_teammate_custom_fields"), pathArgs := [],
      handler := fun _ => listTeammateCustomFields },
    { name := ("create_draft"), pathArgs := [],
      handler := fun args => createDraft args },
    { name := ("list_conversation_drafts"), pathArgs := [("conversation_id")],
      handler := fun args => listConversationDrafts (jsGet args ("conversation_id")) },
    { name := ("create_draft_reply"), pathArgs := [("channel_id")],
      handler := fun args => createDraftReply args },
    { name := ("delete_draft"), pathArgs := [("draft_id")],
      handler := fun args => deleteDraft args },
    { name := ("edit_draft"), pathArgs := [("draft_id")],
      handler := fun args => editDraft args },
    { name := ("list_events"), pathArgs := [],
      handler := fun args => listEvents args },
    { name := ("get_event"), pathArgs := [("event_id")],
      handler := fun args => getEvent (jsGet args ("event_id")) }
  ]

/-- Catalog entries `create_inbox` through `list_teammate_folders`. -/
def catalogPart6 : List OpSpec :=
  [
    { name := ("create_inbox"), pathArgs := [],
      handler := fun args => createInbox args },
    { name := ("list_inbox_channels"), pathArgs := [("inbox_id")],
      handler := fun args => listInboxChannels (jsGet args ("inbox_id")) },
    { name := ("list_inbox_conversations"), pathArgs := [("inbox_id")],
      handler := fun args => listInboxConversations args },
    { name := ("list_inbox_access"), pathArgs := [("inbox_id")],
      handler := fun args => listInboxAccess (jsGet args ("inbox_id")) },
    { name := ("add_inbox_access"), pathArgs := [("inbox_id")],
      handler := fun args => addInboxAccess args },
    { name := ("remove_inbox_access"), pathArgs := [("inbox_id")],
      handler := fun args => removeInboxAccess args },
    { name := ("list_team_inboxes"), pathArgs := [("team_id")],
      handler := fun args => listTeamInboxes (jsGet args ("team_id")) },
    { name := ("create_team_inbox"), pathArgs := [("team_id")],
      handler := fun args => createTeamInbox args },
    { name := ("receive_custom_message"), pathArgs := [("channel_id")],
      handler := fun args => receiveCustomMessage args },
    { name := ("import_message"), pathArgs := [("channel_id")],
      handler := fun args => importMessage args },
    { name := ("get_message_seen_status"), pathArgs := [("message_id")],
      handler := fun args => getMessageSeenStatus (jsGet args ("message_id")) },
    { name := ("mark_message_seen"), pathArgs := [("message_id")],
      handler := fun args => markMessageSeen (jsGet args ("message_id")) },
    { name := ("list_message_template_folders"), pathArgs := [],
      handler := fun args => listMessageTemplateFolders args },
    { name := ("create_message_template_folder"), pathArgs := [],
      handler := fun args => createMessageTemplateFolder args },
    { name := ("get_message_template_folder"), pathArgs := [("folder_id")],
      handler := fun args => getMessageTemplateFolder (jsGet args ("folder_id")) },
    { name := ("update_message_template_folder"), pathArgs := [("folder_id")],
      handler := fun args => updateMessageTemplateFolder args },
    { name := ("delete_message_template_folder"), pathArgs := [("folder_id")],
      handler := fun args => deleteMessageTemplateFolder (jsGet args ("folder_id")) },
    { name := ("list_child_folders"), pathArgs := [("folder_id")],
      handler := fun args => listChildFolders (jsGet args ("folder_id")) },
    { name := ("create_child_folder"), pathArgs := [("folder_id")],
      handler := fun args => createChildFolder args },
    { name := ("list_teammate_folders"), pathArgs := [("teammate_id")],
      handler := fun args => listTeammateFolders (jsGet args ("teammate_id")) }
  ]

/-- Catalog entries `create_teammate_folder` through `update_teammate`. -/
def catalogPart7 : List OpSpec :=
  [
    { name := ("create_teammate_folder"), pathArgs := [("teammate_id")],
      handler := fun args => createTeammateFolder args },
    { name := ("list_team_folders"), pathArgs := [("team_id")],
      handler := fun args => listTeamFolders (jsGet args ("team_id")) },
    { name := ("list_message_templates"), pathArgs := [],
      handler := fun args => listMessageTemplates args },
    { name := ("create_message_template"), pathArgs := [],
      handler := fun args => createMessageTemplate args },
    { name := ("get_message_template"), pathArgs := [("template_id")],
      handler := fun args => getMessageTemplate (jsGet args ("template_id")) },
    { name := ("update_message_template"), pathArgs := [("template_id")],
      handler := fun args => updateMessageTemplate args },
    { name := ("delete_message_template"), pathArgs := [("template_id")],
      handler := fun args => deleteMessageTemplate (jsGet args ("template_id")) },
    { name := ("list_child_templates"), pathArgs := [("template_id")],
      handler := fun args => listChildTemplates (jsGet args ("template_id")) },
    { name := ("create_child_template"), pathArgs := [("template_id")],
      handler := fun args => createChildTemplate args },
    { name := ("get_tag"), pathArgs := [("tag_id")],
      handler := fun args => getTag (jsGet args ("tag_id")) },
    { name := ("update_tag"), pathArgs := [("tag_id")],
      handler := fun args => updateTag args },
    { name := ("delete_tag"), pathArgs := [("tag_id")],
      handler := fun args => deleteTag (jsGet args ("tag_id")) },
    { name := ("list_tag_children"), pathArgs := [("tag_id")],
      handler := fun args => listTagChildren (jsGet args ("tag_id")) },
    { name := ("create_child_tag"), pathArgs := [("tag_id")],
      handler := fun args => createChildTag args },
    { name := ("list_tagged_conversations"), pathArgs := [("tag_id")],
      handler := fun args => listTaggedConversations args },
    { name := ("list_teammate_tags"), pathArgs := [("teammate_id")],
      handler := fun args => listTeammateTags (jsGet args ("teammate_id")) },
    { name := ("create_teammate_tag"), pathArgs := [("teammate_id")],
      handler := fun args => createTeammateTag args },
    { name := ("list_team_tags"), pathArgs := [("team_id")],
      handler := fun args => listTeamTags (jsGet args ("team_id")) },
    { name := ("create_team_tag"), pathArgs := [("team_id")],
      handler := fun args => createTeamTag args },
    { name := ("update_teammate"), pathArgs := [("teammate_id")],
      handler := fun args => updateTeammate args }
  ]

/-- Catalog entries `list_teammate_conversations` through `list_teammate_inboxes`. -/
def catalogPart8 : List OpSpec :=
  [
    { name := ("list_teammate_conversations"), pathArgs := [("teammate_id")],
      handler := fun args => listTeammateConversations args },
    { name := ("list_teammate_inboxes"), pathArgs := [("teammate_id")],
      handler := fun args => listTeammateInboxes (jsGet args ("teammate_id")) }
  ]

/-- The dispatch catalog: one entry per `case` of the `switch`, in source
order (concatenation of the parts above). -/
def catalog : List OpSpec :=
  catalogPart1 ++ catalogPart2 ++ catalogPart3 ++ catalogPart4 ++
    catalogPart5 ++ catalogPart6 ++ catalogPart7 ++ catalogPart8

/-- The catalog's operation names, in `switch` order. -/
def opNames : List String :=
  catalog.map OpSpec.name

/-- The `switch (name)` of the tool-call handler: sequential exact
comparison of the requested name against the `case` labels, first match
wins; the matched arm's single outbound request, or `none` for the
`default` arm (`throw new Error('Unknown tool: ...')`). -/
def buildRequest (name : String) (args : Input) : Option HttpRequest :=
  match catalog.find? (fun op => op.name == name) with
  | some op => some (op.handler args)
  | none => none

/-- The protocol response envelope the tool-call handler returns:
`{ content: [{ type: 'text', text }], isError? }`.  A success response has
no `isError` property, which reads as false. -/
structure ToolResponse where
  text : String
  isError : Bool
deriving DecidableEq

/-- The body of the tool-call handler before its `catch`: dispatch by name,
issue the adapter's single request, and either resolve with the decoded
payload or reject with the thrown error.  The second component collects the
outbound HTTP calls made (empty for the `default` arm, which throws before
any call). -/
def handleCallToolInner (name : String) (args : Input) (remote : Remote) :
    Except ThrownError Value × List HttpRequest :=
  match buildRequest name args with
  | none => (Except.error (ThrownError.jsError ("Unknown tool: " ++ name)), [])
  | some r =>
      match remote r with
      | .ok v => (Except.ok v, [r])
      | .httpError status bodyMsg => (Except.error (ThrownError.axiosHttpError status bodyMsg), [r])
      | .transportError m => (Except.error (ThrownError.axiosTransportError m), [r])

/-- The full tool-call handler: the `try` body above wrapped by the `catch`
that converts any thrown error into an error-flagged text envelope. -/
def handleCallTool (name : String) (args : Input) (remote : Remote) :
    ToolResponse × List HttpRequest :=
  match handleCallToolInner name args remote with
  | (Except.ok v, calls) => ({ text := Value.stringify v, isError := false }, calls)
  | (Except.error e, calls) =>
      ({ text := "Error: " ++ catchMessage e, isError := true }, calls)

/-! ### The `ReadResourceRequestSchema` handler -/

/-- One `contents` entry of a resource read response. -/
structure ResourceContents where
  uri : String
  text : String
deriving DecidableEq

/-- The four fixed resource URIs the read handler serves. -/
def resourceUris : List String :=
  [ "frontapp://conversations/recent", "frontapp://teammates",
    "frontapp://inboxes", "frontapp://tags" ]

/-- The request a resource read issues for a served URI. -/
def resourceRequest (uri : String) : Option HttpRequest :=
  if uri = "frontapp://conversations/recent" then
    some (axiosGetQ ("/conversations") [(("limit"), Value.num 20)])
  else if uri = "frontapp://teammates" then
    some (axiosGet ("/teammates"))
  else if uri = "frontapp://inboxes" then
    some (axiosGet ("/inboxes"))
  else if uri = "frontapp://tags" then
    some (axiosGet ("/tags"))
  else
    none

/-- The resource read handler.  Unlike the tool-call handler it has no
`catch`: an unknown URI throws `Unknown resource: ...`, and a failing
remote call rejects with the axios error; both propagate to the caller. -/
def readResource (uri : String) (remote : Remote) :
    Except ThrownError ResourceContents :=
  match resourceRequest uri with
  | none => Except.error (ThrownError.jsError ("Unknown resource: " ++ uri))
  | some r =>
      match remote r with
      | .ok v => Except.ok { uri := uri, text := Value.stringify v }
      | .httpError status bodyMsg => Except.error (ThrownError.axiosHttpError status bodyMsg)
      | .transportError m => Except.error (ThrownError.axiosTransportError m)

/-! ### Startup -/

/-- What the top-level script does after reading the environment. -/
inductive MainOutcome where
  | exitWith : Nat → MainOutcome
  | serve : String → MainOutcome
deriving DecidableEq

/-- The top-level startup code: read `FRONTAPP_API_TOKEN` from the process
environment; if it is absent (or empty, which is falsy in JS) print an
error and `process.exit(1)`; otherwise construct the server with the token
and start serving. -/
def mainStartup (apiToken : Option String) : MainOutcome :=
  match apiToken with
  | none => MainOutcome.exitWith 1
  | some t => cond (t == "") (MainOutcome.exitWith 1) (MainOutcome.serve t)

/-! ## Lemmas -/

/-- A key never survives its own rest-destructuring: the keys of
`eraseKey l k` are the keys of `l` other than `k`. -/
theorem mem_keys_eraseKey (l : Input) (k x : String) :
    x ∈ (eraseKey l k).map Prod.fst ↔ x ∈ l.map Prod.fst ∧ x ≠ k := by
  simp only [eraseKey, List.mem_map, List.mem_filter, bne_iff_ne, ne_eq]
  constructor
  · rintro ⟨p, ⟨hp, hk⟩, rfl⟩
    exact ⟨⟨p, hp, rfl⟩, hk⟩
  · rintro ⟨⟨p, hp, rfl⟩, hk⟩
    exact ⟨p, ⟨hp, hk⟩, rfl⟩

/-- The only key an optional object field can contribute is its own. -/
theorem mem_keys_optField (k : String) (v : Option Value) (x : String) :
    x ∈ (optField k v).map Prod.fst ↔ (∃ w, v = some w) ∧ x = k := by
  cases v <;> simp [optField]

/-- A name outside the catalog matches no `case`: the `switch` falls
through to the `default` arm. -/
theorem buildRequest_unknown (name : String) (args : Input)
    (h : name ∉ opNames) : buildRequest name args = none := by
  unfold buildRequest
  rw [List.find?_eq_none.mpr]
  intro op hop heq
  apply h
  have hm : op.name ∈ catalog.map OpSpec.name := List.mem_map_of_mem OpSpec.name hop
  rw [beq_iff_eq] at heq
  rw [opNames]
  exact heq ▸ hm

/-- Evaluation of the tool-call handler on a known operation: the matched
adapter's request is issued once and the remote outcome decides the
envelope. -/
theorem handleCallTool_known (name : String) (args : Input) (remote : Remote)
    (req : HttpRequest) (hbr : buildRequest name args = some req) :
    handleCallTool name args remote =
      match remote req with
      | RemoteOutcome.ok v => ({ text := Value.stringify v, isError := false }, [req])
      | RemoteOutcome.httpError s m =>
          ({ text := "Error: " ++ catchMessage (ThrownError.axiosHttpError s m),
             isError := true }, [req])
      | RemoteOutcome.transportError m =>
          ({ text := "Error: " ++ catchMessage (ThrownError.axiosTransportError m),
             isError := true }, [req]) := by
  have h1 : handleCallToolInner name args remote =
      (match remote req with
       | RemoteOutcome.ok v => (Except.ok v, [req])
       | RemoteOutcome.httpError s m =>
           (Except.error (ThrownError.axiosHttpError s m), [req])
       | RemoteOutcome.transportError m =>
           (Except.error (ThrownError.axiosTransportError m), [req])) := by
    unfold handleCallToolInner
    rw [hbr]
  unfold handleCallTool
  rw [h1]
  cases remote req <;> rfl

/-- JS strict comparison with the literal string `comment`, characterised. -/
theorem isCommentType_eq_true (t : Option Value) :
    isCommentType t = true ↔ t = some (Value.str ("comment")) := by
  cases t with
  | none => simp [isCommentType]
  | some v => cases v <;> simp [isCommentType]

/-! ## Claim theorems -/

/-- Claim C2: dispatching an operation name that has no matching descriptor in the
catalog returns an error-flagged response identifying the unknown
operation, and zero outbound HTTP calls are made. -/
theorem unknown_operation_no_call (name : String) (args : Input) (remote : Remote)
    (h : name ∉ opNames) :
    handleCallTool name args remote =
      ({ text := "Error: " ++ ("Unknown tool: " ++ name), isError := true }, []) := by
  unfold handleCallTool handleCallToolInner
  rw [buildRequest_unknown name args h]
  rfl

/-- Witness for C2 at the concrete unknown name `does_not_exist`. -/
theorem unknown_operation_no_call_witness :
    ("does_not_exist") ∉ opNames ∧
    handleCallTool ("does_not_exist") [] (fun _ => RemoteOutcome.ok Value.null) =
      ({ text := "Error: " ++ ("Unknown tool: " ++ "does_not_exist"),
         isError := true }, []) :=
  ⟨by decide,
   unknown_operation_no_call ("does_not_exist") [] (fun _ => RemoteOutcome.ok Value.null)
     (by decide)⟩

/-- Claim C6: `reply_to_conversation` with `conversation_id = cnv_1`, `type =
comment`, `body = hi` posts to the comments sub-resource, and the same
input with `type = reply` posts to the messages sub-resource; in both
cases `type` (and the path field) is excluded from the forwarded body
while the remaining field is forwarded. -/
theorem reply_routes_comment_vs_message :
    buildRequest ("reply_to_conversation")
      [(("conversation_id"), Value.str ("cnv_1")), (("type"), Value.str ("comment")),
       (("body"), Value.str ("hi"))] =
      some { method := Method.post, path := "/conversations/cnv_1/comments",
             query := [], body := Body.obj [(("body"), Value.str ("hi"))] } ∧
    buildRequest ("reply_to_conversation")
      [(("conversation_id"), Value.str ("cnv_1")), (("type"), Value.str ("reply")),
       (("body"), Value.str ("hi"))] =
      some { method := Method.post, path := "/conversations/cnv_1/messages",
             query := [], body := Body.obj [(("body"), Value.str ("hi"))] } :=
  ⟨rfl, rfl⟩

/-- Claim C7: `get_contact` with `contact_id = crd_123` issues exactly one GET to
`/contacts/crd_123` with no query parameters and, on success, returns the
decoded response body unmodified. -/
theorem get_contact_request (remote : Remote) (v : Value)
    (h : remote { method := Method.get, path := "/contacts/crd_123",
                  query := [], body := Body.empty } = RemoteOutcome.ok v) :
    handleCallTool ("get_contact") [(("contact_id"), Value.str ("crd_123"))] remote =
      ({ text := Value.stringify v, isError := false },
       [{ method := Method.get, path := "/contacts/crd_123",
          query := [], body := Body.empty }]) := by
  rw [handleCallTool_known ("get_contact") [(("contact_id"), Value.str ("crd_123"))]
      remote { method := Method.get, path := "/contacts/crd_123",
               query := [], body := Body.empty } rfl]
  rw [h]

/-- Witness for C7 at a concrete remote returning a concrete payload. -/
theorem get_contact_request_witness :
    handleCallTool ("get_contact") [(("contact_id"), Value.str ("crd_123"))]
      (fun _ => RemoteOutcome.ok (Value.str ("payload"))) =
      ({ text := Value.stringify (Value.str ("payload")), isError := false },
       [{ method := Method.get, path := "/contacts/crd_123",
          query := [], body := Body.empty }]) :=
  get_contact_request (fun _ => RemoteOutcome.ok (Value.str ("payload")))
    (Value.str ("payload")) rfl

/-- Claim C8: when the required credential environment variable is absent the
process exits at startup with a nonzero status instead of serving; with a
token present it serves.  Credential absence therefore never reaches the
per-call path. -/
theorem missing_token_exits :
    (∃ c, mainStartup none = MainOutcome.exitWith c ∧ 0 < c) ∧
    mainStartup (some ("token")) = MainOutcome.serve ("token") :=
  ⟨⟨1, rfl, Nat.zero_lt_one⟩, rfl⟩

/-- Counterexample for claim C1: on `edit_draft` a 409 and a 404 carrying the same
remote body message produce identical responses — the handler exposes no
`VersionConflict` kind, so the two statuses are not distinguishable. -/
theorem draft_conflict_counterexample :
    handleCallTool ("edit_draft")
      [(("draft_id"), Value.str ("drf_1")), (("version"), Value.str ("v1"))]
      (fun _ => RemoteOutcome.httpError 409 (some ("Conflict"))) =
    handleCallTool ("edit_draft")
      [(("draft_id"), Value.str ("drf_1")), (("version"), Value.str ("v1"))]
      (fun _ => RemoteOutcome.httpError 404 (some ("Conflict"))) := rfl

/-- Claim C1 amended: on draft edit/delete both a 409 and a 404 are normalised by
the same catch block into an error-flagged envelope whose text is the
remote body message when present, else axios's generic text embedding the
status code; the two responses are told apart only by those texts, which do
differ when the remote supplies no body message. -/
theorem draft_conflict_amended (args : Input) (m : Option String) :
    (handleCallTool ("edit_draft") args
        (fun _ => RemoteOutcome.httpError 409 m)).1 =
      { text := "Error: " ++ catchMessage (ThrownError.axiosHttpError 409 m),
        isError := true } ∧
    (handleCallTool ("edit_draft") args
        (fun _ => RemoteOutcome.httpError 404 m)).1 =
      { text := "Error: " ++ catchMessage (ThrownError.axiosHttpError 404 m),
        isError := true } ∧
    (handleCallTool ("delete_draft") args
        (fun _ => RemoteOutcome.httpError 409 m)).1 =
      { text := "Error: " ++ catchMessage (ThrownError.axiosHttpError 409 m),
        isError := true } ∧
    (handleCallTool ("delete_draft") args
        (fun _ => RemoteOutcome.httpError 404 m)).1 =
      { text := "Error: " ++ catchMessage (ThrownError.axiosHttpError 404 m),
        isError := true } ∧
    (m = none →
      ("Error: " ++ catchMessage (ThrownError.axiosHttpError 409 m)) ≠
        ("Error: " ++ catchMessage (ThrownError.axiosHttpError 404 m))) := by
  refine ⟨rfl, rfl, rfl, rfl, ?_⟩
  intro hm
  subst hm
  decide

/-- Witness for the amended C1 at a concrete input with no body message. -/
theorem draft_conflict_amended_witness :
    (handleCallTool ("edit_draft") [(("draft_id"), Value.str ("drf_1"))]
        (fun _ => RemoteOutcome.httpError 409 none)).1 =
      { text := "Error: " ++ catchMessage (ThrownError.axiosHttpError 409 none),
        isError := true } ∧
    ("Error: " ++ catchMessage (ThrownError.axiosHttpError 409 none)) ≠
      ("Error: " ++ catchMessage (ThrownError.axiosHttpError 404 none)) :=
  ⟨(draft_conflict_amended [(("draft_id"), Value.str ("drf_1"))] none).1,
   (draft_conflict_amended [(("draft_id"), Value.str ("drf_1"))] none).2.2.2.2 rfl⟩

/-- Counterexample for claim C4: when the remote error body carries a message the
surfaced failure does not carry the status code — statuses 500 and 503
with the same body message yield identical responses, whose text is just
the body message. -/
theorem remote_status_dropped_counterexample :
    handleCallTool ("get_contact") [(("contact_id"), Value.str ("crd_123"))]
      (fun _ => RemoteOutcome.httpError 500 (some ("boom"))) =
      handleCallTool ("get_contact") [(("contact_id"), Value.str ("crd_123"))]
        (fun _ => RemoteOutcome.httpError 503 (some ("boom"))) ∧
    (handleCallTool ("get_contact") [(("contact_id"), Value.str ("crd_123"))]
        (fun _ => RemoteOutcome.httpError 500 (some ("boom")))).1.text =
      "Error: boom" :=
  ⟨rfl, rfl⟩

/-- Claim C4 amended: every failed remote call surfaces as an error-flagged
envelope whose text is `Error: ` followed by the remote body message when
present and non-empty, else the generic transport text (which embeds the
status code); the status code is carried only through that fallback. -/
theorem remote_failure_message_amended (name : String) (args : Input)
    (remote : Remote) (req : HttpRequest) (s : Nat) (m : Option String)
    (hbr : buildRequest name args = some req)
    (hr : remote req = RemoteOutcome.httpError s m) :
    handleCallTool name args remote =
      ({ text := "Error: " ++ catchMessage (ThrownError.axiosHttpError s m),
         isError := true }, [req]) := by
  rw [handleCallTool_known name args remote req hbr, hr]

/-- Witness for the amended C4 at a concrete failing call. -/
theorem remote_failure_message_amended_witness :
    handleCallTool ("get_contact") [(("contact_id"), Value.str ("crd_123"))]
      (fun _ => RemoteOutcome.httpError 500 (some ("boom"))) =
      ({ text := "Error: " ++
           catchMessage (ThrownError.axiosHttpError 500 (some ("boom"))),
         isError := true },
       [{ method := Method.get, path := "/contacts/crd_123",
          query := [], body := Body.empty }]) :=
  remote_failure_message_amended ("get_contact")
    [(("contact_id"), Value.str ("crd_123"))]
    (fun _ => RemoteOutcome.httpError 500 (some ("boom")))
    { method := Method.get, path := "/contacts/crd_123",
      query := [], body := Body.empty } 500 (some ("boom")) rfl rfl

/-- Claim C9: `reply_to_conversation` routes to the comments sub-resource path
exactly when the `type` field is the exact string `comment`; any other
value — absent, unrecognised, or non-string — routes to the messages
sub-resource path. -/
theorem reply_type_routing (args : Input) (req : HttpRequest)
    (h : buildRequest ("reply_to_conversation") args = some req) :
    (jsGet args ("type") ≠ some (Value.str ("comment")) →
      req.path =
        "/conversations/" ++ interpOpt (jsGet args ("conversation_id")) ++ "/messages") ∧
    (jsGet args ("type") = some (Value.str ("comment")) →
      req.path =
        "/conversations/" ++ interpOpt (jsGet args ("conversation_id")) ++ "/comments") := by
  have h2 : some (replyToConversation args) = some req := h
  injection h2 with h2
  subst h2
  constructor
  · intro hne
    have hb : isCommentType (jsGet args ("type")) = false := by
      cases hb : isCommentType (jsGet args ("type"))
      · rfl
      · exact absurd ((isCommentType_eq_true _).mp hb) hne
    simp only [replyToConversation, axiosPost, hb, cond_false]
    rw [String.append_assoc]
    rfl
  · intro heq
    have hb : isCommentType (jsGet args ("type")) = true :=
      (isCommentType_eq_true _).mpr heq
    simp only [replyToConversation, axiosPost, hb, cond_true]
    rw [String.append_assoc]
    rfl

/-- Witness for C9 at a concrete input with `type = reply`. -/
theorem reply_type_routing_witness :
    (replyToConversation
        [(("conversation_id"), Value.str ("cnv_9")), (("type"), Value.str ("reply"))]).path =
      "/conversations/" ++
        interpOpt (jsGet [(("conversation_id"), Value.str ("cnv_9")),
          (("type"), Value.str ("reply"))] ("conversation_id")) ++ "/messages" :=
  (reply_type_routing
      [(("conversation_id"), Value.str ("cnv_9")), (("type"), Value.str ("reply"))]
      (replyToConversation
        [(("conversation_id"), Value.str ("cnv_9")), (("type"), Value.str ("reply"))])
      rfl).1
    (by intro hc; simp [jsGet, List.lookup] at hc)

/-- Claim C10: reading a resource whose URI is not one of the four fixed URIs
throws an uncaught `Unknown resource` error from the read handler, while
every tool-call failure is normalised by the catch block into an
error-flagged text envelope. -/
theorem resource_read_throws_uncaught :
    (∀ uri remote, uri ∉ resourceUris →
       readResource uri remote =
         Except.error (ThrownError.jsError ("Unknown resource: " ++ uri))) ∧
    (∀ name args remote e calls,
       handleCallToolInner name args remote = (Except.error e, calls) →
       handleCallTool name args remote =
         ({ text := "Error: " ++ catchMessage e, isError := true }, calls)) := by
  constructor
  · intro uri remote h
    have h1 : uri ≠ "frontapp://conversations/recent" := by
      intro hx
      exact h (by rw [hx]; decide)
    have h2 : uri ≠ "frontapp://teammates" := by
      intro hx
      exact h (by rw [hx]; decide)
    have h3 : uri ≠ "frontapp://inboxes" := by
      intro hx
      exact h (by rw [hx]; decide)
    have h4 : uri ≠ "frontapp://tags" := by
      intro hx
      exact h (by rw [hx]; decide)
    unfold readResource resourceRequest
    rw [if_neg h1, if_neg h2, if_neg h3, if_neg h4]
  · intro name args remote e calls h
    unfold handleCallTool
    rw [h]

/-- Witness for C10: a concrete unknown URI propagates an error, and a
concrete failed tool call is normalised into an envelope. -/
theorem resource_read_throws_uncaught_witness :
    readResource ("frontapp://unknown") (fun _ => RemoteOutcome.ok Value.null) =
      Except.error (ThrownError.jsError ("Unknown resource: " ++ "frontapp://unknown")) ∧
    handleCallTool ("nope_tool") [] (fun _ => RemoteOutcome.ok Value.null) =
      ({ text := "Error: " ++
           catchMessage (ThrownError.jsError ("Unknown tool: " ++ "nope_tool")),
         isError := true }, []) :=
  ⟨resource_read_throws_uncaught.1 ("frontapp://unknown")
      (fun _ => RemoteOutcome.ok Value.null) (by decide),
   resource_read_throws_uncaught.2 ("nope_tool") [] (fun _ => RemoteOutcome.ok Value.null)
      (ThrownError.jsError ("Unknown tool: " ++ "nope_tool")) [] rfl⟩

/-- Claim C5: every remove-style operation (tags, followers, handles, links,
list/group/account contacts, inbox access) dispatches to an adapter that
issues a DELETE whose request body carries the identifier argument(s). -/
theorem remove_ops_delete_with_body (args : Input) (v w : Value) :
    (buildRequest ("remove_conversation_tag") args = some (removeConversationTag args) ∧
     (removeConversationTag args).method = Method.delete ∧
     (jsGet args ("tag_ids") = some v →
       (removeConversationTag args).body = Body.obj [(("tag_ids"), v)])) ∧
    (buildRequest ("delete_conversation_followers") args =
        some (deleteConversationFollowers args) ∧
     (deleteConversationFollowers args).method = Method.delete ∧
     (jsGet args ("teammate_ids") = some v →
       (deleteConversationFollowers args).body = Body.obj [(("teammate_ids"), v)])) ∧
    (buildRequest ("delete_contact_handle") args = some (deleteContactHandle args) ∧
     (deleteContactHandle args).method = Method.delete ∧
     (jsGet args ("handle") = some v → jsGet args ("source") = some w →
       (deleteContactHandle args).body =
         Body.obj [(("handle"), v), (("source"), w)])) ∧
    (buildRequest ("remove_conversation_links") args =
        some (removeConversationLinks args) ∧
     (removeConversationLinks args).method = Method.delete ∧
     (jsGet args ("link_ids") = some v →
       (removeConversationLinks args).body = Body.obj [(("link_ids"), v)])) ∧
    (buildRequest ("remove_contacts_from_list") args =
        some (removeContactsFromList args) ∧
     (removeContactsFromList args).method = Method.delete ∧
     (jsGet args ("contact_ids") = some v →
       (removeContactsFromList args).body = Body.obj [(("contact_ids"), v)])) ∧
    (buildRequest ("remove_contacts_from_group") args =
        some (removeContactsFromGroup args) ∧
     (removeContactsFromGroup args).method = Method.delete ∧
     (jsGet args ("contact_ids") = some v →
       (removeContactsFromGroup args).body = Body.obj [(("contact_ids"), v)])) ∧
    (buildRequest ("remove_contact_from_account") args =
        some (removeContactFromAccount args) ∧
     (removeContactFromAccount args).method = Method.delete ∧
     (jsGet args ("contact_ids") = some v →
       (removeContactFromAccount args).body = Body.obj [(("contact_ids"), v)])) ∧
    (buildRequest ("remove_inbox_access") args = some (removeInboxAccess args) ∧
     (removeInboxAccess args).method = Method.delete ∧
     (jsGet args ("teammate_ids") = some v →
       (removeInboxAccess args).body = Body.obj [(("teammate_ids"), v)])) := by
  refine ⟨⟨rfl, rfl, ?_⟩, ⟨rfl, rfl, ?_⟩, ⟨rfl, rfl, ?_⟩, ⟨rfl, rfl, ?_⟩,
    ⟨rfl, rfl, ?_⟩, ⟨rfl, rfl, ?_⟩, ⟨rfl, rfl, ?_⟩, ⟨rfl, rfl, ?_⟩⟩
  · intro hv
    simp [removeConversationTag, axiosDeleteData, optField, hv]
  · intro hv
    simp [deleteConversationFollowers, axiosDeleteData, optField, hv]
  · intro hv hw
    simp [deleteContactHandle, axiosDeleteData, optField, hv, hw]
  · intro hv
    simp [removeConversationLinks, axiosDeleteData, optField, hv]
  · intro hv
    simp [removeContactsFromList, axiosDeleteData, optField, hv]
  · intro hv
    simp [removeContactsFromGroup, axiosDeleteData, optField, hv]
  · intro hv
    simp [removeContactFromAccount, axiosDeleteData, optField, hv]
  · intro hv
    simp [removeInboxAccess, axiosDeleteData, optField, hv]

/-- Witness for C5: concrete DELETE bodies for each remove-style adapter. -/
theorem remove_ops_delete_with_body_witness :
    (removeConversationTag [(("tag_ids"), Value.arr [])]).method = Method.delete ∧
    (removeConversationTag [(("tag_ids"), Value.arr [])]).body =
      Body.obj [(("tag_ids"), Value.arr [])] ∧
    (deleteConversationFollowers [(("teammate_ids"), Value.arr [])]).body =
      Body.obj [(("teammate_ids"), Value.arr [])] ∧
    (deleteContactHandle
        [(("handle"), Value.str ("h")), (("source"), Value.str ("s"))]).body =
      Body.obj [(("handle"), Value.str ("h")), (("source"), Value.str ("s"))] ∧
    (removeConversationLinks [(("link_ids"), Value.arr [])]).body =
      Body.obj [(("link_ids"), Value.arr [])] ∧
    (removeContactsFromList [(("contact_ids"), Value.arr [])]).body =
      Body.obj [(("contact_ids"), Value.arr [])] ∧
    (removeContactsFromGroup [(("contact_ids"), Value.arr [])]).body =
      Body.obj [(("contact_ids"), Value.arr [])] ∧
    (removeContactFromAccount [(("contact_ids"), Value.arr [])]).body =
      Body.obj [(("contact_ids"), Value.arr [])] ∧
    (removeInboxAccess [(("teammate_ids"), Value.arr [])]).body =
      Body.obj [(("teammate_ids"), Value.arr [])] :=
  ⟨(remove_ops_delete_with_body [(("tag_ids"), Value.arr [])]
      (Value.arr []) Value.null).1.2.1,
   (remove_ops_delete_with_body [(("tag_ids"), Value.arr [])]
      (Value.arr []) Value.null).1.2.2 rfl,
   (remove_ops_delete_with_body [(("teammate_ids"), Value.arr [])]
      (Value.arr []) Value.null).2.1.2.2 rfl,
   (remove_ops_delete_with_body
      [(("handle"), Value.str ("h")), (("source"), Value.str ("s"))]
      (Value.str ("h")) (Value.str ("s"))).2.2.1.2.2 rfl rfl,
   (remove_ops_delete_with_body [(("link_ids"), Value.arr [])]
      (Value.arr []) Value.null).2.2.2.1.2.2 rfl,
   (remove_ops_delete_with_body [(("contact_ids"), Value.arr [])]
      (Value.arr []) Value.null).2.2.2.2.1.2.2 rfl,
   (remove_ops_delete_with_body [(("contact_ids"), Value.arr [])]
      (Value.arr []) Value.null).2.2.2.2.2.1.2.2 rfl,
   (remove_ops_delete_with_body [(("contact_ids"), Value.arr [])]
      (Value.arr []) Value.null).2.2.2.2.2.2.1.2.2 rfl,
   (remove_ops_delete_with_body [(("teammate_ids"), Value.arr [])]
      (Value.arr []) Value.null).2.2.2.2.2.2.2.2.2 rfl⟩

/-- A raw-forwarding PUT has no body field names regardless of the value. -/
theorem fieldNames_axiosPutRaw (p : String) (v : Option Value) :
    (axiosPutRaw p v).body.fieldNames = [] := by
  cases v <;> rfl

/-- A raw-forwarding PUT carries no query parameters. -/
theorem queryNames_axiosPutRaw (p : String) (v : Option Value) :
    (axiosPutRaw p v).queryNames = [] := by
  cases v <;> rfl


/-- A raw-forwarding PUT carries no query parameters. -/
theorem query_axiosPutRaw (p : String) (v : Option Value) :
    (axiosPutRaw p v).query = [] := by
  cases v <;> rfl

/-- Pair membership in a rest-destructured object: the entry survives
exactly when its key is not the erased one. -/
theorem pair_mem_eraseKey (l : Input) (a k : String) (x : Value) :
    (a, x) ∈ eraseKey l k ↔ ((a, x) ∈ l ∧ a ≠ k) := by
  simp [eraseKey, List.mem_filter]

/-- Pair membership in an optional object field: only the field's own key
with the present value. -/
theorem pair_mem_optField (k : String) (v : Option Value) (a : String) (x : Value) :
    (a, x) ∈ optField k v ↔ (a = k ∧ v = some x) := by
  cases v with
  | none => simp [optField]
  | some w =>
      simp only [optField, List.mem_singleton, Prod.mk.injEq, Option.some.injEq]
      constructor
      · rintro ⟨rfl, rfl⟩
        exact ⟨rfl, rfl⟩
      · rintro ⟨rfl, rfl⟩
        exact ⟨rfl, rfl⟩

/-- Path-argument exclusion for the catalog entries of part 1. -/
theorem pathSafePart1 : ∀ op ∈ catalogPart1, ∀ args, ∀ f ∈ op.pathArgs,
    f ∉ ((op.handler args).body.fieldNames) ∧ f ∉ ((op.handler args).queryNames) := by
  intro op hop
  simp only [catalogPart1, List.mem_cons, List.not_mem_nil, or_false] at hop
  rcases hop with rfl|rfl|rfl|rfl|rfl|rfl|rfl|rfl|rfl|rfl|rfl|rfl|rfl|rfl|rfl|rfl|rfl|rfl|rfl|rfl
  all_goals
    intro args f hf
    first
    | exact absurd hf (List.not_mem_nil f)
    | (simp only [List.mem_cons, List.not_mem_nil, or_false] at hf
       (first | (subst hf) | (rcases hf with rfl | rfl)) <;>
         (constructor <;>
           first
           | (simp [addComment, createContact, createTag, getContact, getConversation, getInbox, getMessage, getTeammate, listContacts, listConversationComments, listConversationMessages, listConversations, listInboxes, listTags, listTeammates, replyToConversation, searchConversations, sendMessage, updateContact, updateConversation, axiosGetQ, axiosGet, axiosPost, axiosPostEmpty, axiosPatch, axiosPut, axiosDelete, axiosDeleteData, Body.fieldNames, HttpRequest.queryNames, pair_mem_eraseKey, pair_mem_optField, mem_keys_eraseKey, mem_keys_optField, fieldNames_axiosPutRaw, query_axiosPutRaw]; done)
           | (rcases htv : jsGet args ("template") with _ | _ <;>
               simp [htv, addComment, createContact, createTag, getContact, getConversation, getInbox, getMessage, getTeammate, listContacts, listConversationComments, listConversationMessages, listConversations, listInboxes, listTags, listTeammates, replyToConversation, searchConversations, sendMessage, updateContact, updateConversation, axiosGetQ, axiosGet, axiosPost, axiosPostEmpty, axiosPatch, axiosPut, axiosDelete, axiosDeleteData, Body.fieldNames, HttpRequest.queryNames, pair_mem_eraseKey, pair_mem_optField, mem_keys_eraseKey, mem_keys_optField, fieldNames_axiosPutRaw, query_axiosPutRaw, axiosPutRaw])))

/-- Path-argument exclusion for the catalog entries of part 2. -/
theorem pathSafePart2 : ∀ op ∈ catalogPart2, ∀ args, ∀ f ∈ op.pathArgs,
    f ∉ ((op.handler args).body.fieldNames) ∧ f ∉ ((op.handler args).queryNames) := by
  intro op hop
  simp only [catalogPart2, List.mem_cons, List.not_mem_nil, or_false] at hop
  rcases hop with rfl|rfl|rfl|rfl|rfl|rfl|rfl|rfl|rfl|rfl|rfl|rfl|rfl|rfl|rfl|rfl|rfl|rfl|rfl|rfl
  all_goals
    intro args f hf
    first
    | exact absurd hf (List.not_mem_nil f)
    | (simp only [List.mem_cons, List.not_mem_nil, or_false] at hf
       (first | (subst hf) | (rcases hf with rfl | rfl)) <;>
         (constructor <;>
           first
           | (simp [addContactHandle, addContactNote, addContactToAccount, createAccount, createTeammateContact, deleteAccount, deleteContact, deleteContactHandle, getAccount, getAnalytics, listAccountContacts, listAccounts, listChannels, listContactConversations, listContactNotes, listTeamContacts, listTeammateContacts, mergeContacts, removeContactFromAccount, updateAccount, axiosGetQ, axiosGet, axiosPost, axiosPostEmpty, axiosPatch, axiosPut, axiosDelete, axiosDeleteData, Body.fieldNames, HttpRequest.queryNames, pair_mem_eraseKey, pair_mem_optField, mem_keys_eraseKey, mem_keys_optField, fieldNames_axiosPutRaw, query_axiosPutRaw]; done)
           | (rcases htv : jsGet args ("template") with _ | _ <;>
               simp [htv, addContactHandle, addContactNote, addContactToAccount, createAccount, createTeammateContact, deleteAccount, deleteContact, deleteContactHandle, getAccount, getAnalytics, listAccountContacts, listAccounts, listChannels, listContactConversations, listContactNotes, listTeamContacts, listTeammateContacts, mergeContacts, removeContactFromAccount, updateAccount, axiosGetQ, axiosGet, axiosPost, axiosPostEmpty, axiosPatch, axiosPut, axiosDelete, axiosDeleteData, Body.fieldNames, HttpRequest.queryNames, pair_mem_eraseKey, pair_mem_optField, mem_keys_eraseKey, mem_keys_optField, fieldNames_axiosPutRaw, query_axiosPutRaw, axiosPutRaw])))

/-- Path-argument exclusion for the catalog entries of part 3. -/
theorem pathSafePart3 : ∀ op ∈ catalogPart3, ∀ args, ∀ f ∈ op.pathArgs,
    f ∉ ((op.handler args).body.fieldNames) ∧ f ∉ ((op.handler args).queryNames) := by
  intro op hop
  simp only [catalogPart3, List.mem_cons, List.not_mem_nil, or_false] at hop
  rcases hop with rfl|rfl|rfl|rfl|rfl|rfl|rfl|rfl|rfl|rfl|rfl|rfl|rfl|rfl|rfl|rfl|rfl|rfl|rfl|rfl
  all_goals
    intro args f hf
    first
    | exact absurd hf (List.not_mem_nil f)
    | (simp only [List.mem_cons, List.not_mem_nil, or_false] at hf
       (first | (subst hf) | (rcases hf with rfl | rfl)) <;>
         (constructor <;>
           first
           | (simp [addCommentReply, addContactsToGroup, createChannel, createContactGroup, deleteContactGroup, getChannel, getComment, listCommentMentions, listContactGroups, listGroupContacts, listTeamChannels, listTeammateChannels, removeContactsFromGroup, syncApplicationMessageTemplate, syncInboundMessage, syncOutboundMessage, updateChannel, updateComment, updateExternalMessageStatus, validateChannel, axiosGetQ, axiosGet, axiosPost, axiosPostEmpty, axiosPatch, axiosPut, axiosDelete, axiosDeleteData, Body.fieldNames, HttpRequest.queryNames, pair_mem_eraseKey, pair_mem_optField, mem_keys_eraseKey, mem_keys_optField, fieldNames_axiosPutRaw, query_axiosPutRaw]; done)
           | (rcases htv : jsGet args ("template") with _ | _ <;>
               simp [htv, addCommentReply, addContactsToGroup, createChannel, createContactGroup, deleteContactGroup, getChannel, getComment, listCommentMentions, listContactGroups, listGroupContacts, listTeamChannels, listTeammateChannels, removeContactsFromGroup, syncApplicationMessageTemplate, syncInboundMessage, syncOutboundMessage, updateChannel, updateComment, updateExternalMessageStatus, validateChannel, axiosGetQ, axiosGet, axiosPost, axiosPostEmpty, axiosPatch, axiosPut, axiosDelete, axiosDeleteData, Body.fieldNames, HttpRequest.queryNames, pair_mem_eraseKey, pair_mem_optField, mem_keys_eraseKey, mem_keys_optField, fieldNames_axiosPutRaw, query_axiosPutRaw, axiosPutRaw])))

/-- Path-argument exclusion for the catalog entries of part 4. -/
theorem pathSafePart4 : ∀ op ∈ catalogPart4, ∀ args, ∀ f ∈ op.pathArgs,
    f ∉ ((op.handler args).body.fieldNames) ∧ f ∉ ((op.handler args).queryNames) := by
  intro op hop
  simp only [catalogPart4, List.mem_cons, List.not_mem_nil, or_false] at hop
  rcases hop with rfl|rfl|rfl|rfl|rfl|rfl|rfl|rfl|rfl|rfl|rfl|rfl|rfl|rfl|rfl|rfl|rfl|rfl|rfl|rfl
  all_goals
    intro args f hf
    first
    | exact absurd hf (List.not_mem_nil f)
    | (simp only [List.mem_cons, List.not_mem_nil, or_false] at hf
       (first | (subst hf) | (rcases hf with rfl | rfl)) <;>
         (constructor <;>
           first
           | (simp [addContactsToList, addConversationFollowers, createContactList, createDiscussionConversation, createTeamContactList, createTeamGroup, createTeammateContactList, createTeammateGroup, deleteContactList, deleteConversationFollowers, listContactListContacts, listContactLists, listConversationEvents, listConversationFollowers, listTeamContactLists, listTeamGroups, listTeammateContactLists, listTeammateGroups, removeContactsFromList, updateConversationAssignee, axiosGetQ, axiosGet, axiosPost, axiosPostEmpty, axiosPatch, axiosPut, axiosDelete, axiosDeleteData, Body.fieldNames, HttpRequest.queryNames, pair_mem_eraseKey, pair_mem_optField, mem_keys_eraseKey, mem_keys_optField, fieldNames_axiosPutRaw, query_axiosPutRaw]; done)
           | (rcases htv : jsGet args ("template") with _ | _ <;>
               simp [htv, addContactsToList, addConversationFollowers, createContactList, createDiscussionConversation, createTeamContactList, createTeamGroup, createTeammateContactList, createTeammateGroup, deleteContactList, deleteConversationFollowers, listContactListContacts, listContactLists, listConversationEvents, listConversationFollowers, listTeamContactLists, listTeamGroups, listTeammateContactLists, listTeammateGroups, removeContactsFromList, updateConversationAssignee, axiosGetQ, axiosGet, axiosPost, axiosPostEmpty, axiosPatch, axiosPut, axiosDelete, axiosDeleteData, Body.fieldNames, HttpRequest.queryNames, pair_mem_eraseKey, pair_mem_optField, mem_keys_eraseKey, mem_keys_optField, fieldNames_axiosPutRaw, query_axiosPutRaw, axiosPutRaw])))

/-- Path-argument exclusion for the catalog entries of part 5. -/
theorem pathSafePart5 : ∀ op ∈ catalogPart5, ∀ args, ∀ f ∈ op.pathArgs,
    f ∉ ((op.handler args).body.fieldNames) ∧ f ∉ ((op.handler args).queryNames) := by
  intro op hop
  simp only [catalogPart5, List.mem_cons, List.not_mem_nil, or_false] at hop
  rcases hop with rfl|rfl|rfl|rfl|rfl|rfl|rfl|rfl|rfl|rfl|rfl|rfl|rfl|rfl|rfl|rfl|rfl|rfl|rfl|rfl
  all_goals
    intro args f hf
    first
    | exact absurd hf (List.not_mem_nil f)
    | (simp only [List.mem_cons, List.not_mem_nil, or_false] at hf
       (first | (subst hf) | (rcases hf with rfl | rfl)) <;>
         (constructor <;>
           first
           | (simp [addConversationLink, addConversationTag, createDraft, createDraftReply, deleteDraft, editDraft, getEvent, listAccountCustomFields, listContactCustomFields, listConversationCustomFields, listConversationDrafts, listConversationInboxes, listCustomFields, listEvents, listInboxCustomFields, listLinkCustomFields, listTeammateCustomFields, removeConversationLinks, removeConversationTag, updateConversationReminders, axiosGetQ, axiosGet, axiosPost, axiosPostEmpty, axiosPatch, axiosPut, axiosDelete, axiosDeleteData, Body.fieldNames, HttpRequest.queryNames, pair_mem_eraseKey, pair_mem_optField, mem_keys_eraseKey, mem_keys_optField, fieldNames_axiosPutRaw, query_axiosPutRaw]; done)
           | (rcases htv : jsGet args ("template") with _ | _ <;>
               simp [htv, addConversationLink, addConversationTag, createDraft, createDraftReply, deleteDraft, editDraft, getEvent, listAccountCustomFields, listContactCustomFields, listConversationCustomFields, listConversationDrafts, listConversationInboxes, listCustomFields, listEvents, listInboxCustomFields, listLinkCustomFields, listTeammateCustomFields, removeConversationLinks, removeConversationTag, updateConversationReminders, axiosGetQ, axiosGet, axiosPost, axiosPostEmpty, axiosPatch, axiosPut, axiosDelete, axiosDeleteData, Body.fieldNames, HttpRequest.queryNames, pair_mem_eraseKey, pair_mem_optField, mem_keys_eraseKey, mem_keys_optField, fieldNames_axiosPutRaw, query_axiosPutRaw, axiosPutRaw])))

/-- Path-argument exclusion for the catalog entries of part 6. -/
theorem pathSafePart6 : ∀ op ∈ catalogPart6, ∀ args, ∀ f ∈ op.pathArgs,
    f ∉ ((op.handler args).body.fieldNames) ∧ f ∉ ((op.handler args).queryNames) := by
  intro op hop
  simp only [catalogPart6, List.mem_cons, List.not_mem_nil, or_false] at hop
  rcases hop with rfl|rfl|rfl|rfl|rfl|rfl|rfl|rfl|rfl|rfl|rfl|rfl|rfl|rfl|rfl|rfl|rfl|rfl|rfl|rfl
  all_goals
    intro args f hf
    first
    | exact absurd hf (List.not_mem_nil f)
    | (simp only [List.mem_cons, List.not_mem_nil, or_false] at hf
       (first | (subst hf) | (rcases hf with rfl | rfl)) <;>
         (constructor <;>
           first
           | (simp [addInboxAccess, createChildFolder, createInbox, createMessageTemplateFolder, createTeamInbox, deleteMessageTemplateFolder, getMessageSeenStatus, getMessageTemplateFolder, importMessage, listChildFolders, listInboxAccess, listInboxChannels, listInboxConversations, listMessageTemplateFolders, listTeamInboxes, listTeammateFolders, markMessageSeen, receiveCustomMessage, removeInboxAccess, updateMessageTemplateFolder, axiosGetQ, axiosGet, axiosPost, axiosPostEmpty, axiosPatch, axiosPut, axiosDelete, axiosDeleteData, Body.fieldNames, HttpRequest.queryNames, pair_mem_eraseKey, pair_mem_optField, mem_keys_eraseKey, mem_keys_optField, fieldNames_axiosPutRaw, query_axiosPutRaw]; done)
           | (rcases htv : jsGet args ("template") with _ | _ <;>
               simp [htv, addInboxAccess, createChildFolder, createInbox, createMessageTemplateFolder, createTeamInbox, deleteMessageTemplateFolder, getMessageSeenStatus, getMessageTemplateFolder, importMessage, listChildFolders, listInboxAccess, listInboxChannels, listInboxConversations, listMessageTemplateFolders, listTeamInboxes, listTeammateFolders, markMessageSeen, receiveCustomMessage, removeInboxAccess, updateMessageTemplateFolder, axiosGetQ, axiosGet, axiosPost, axiosPostEmpty, axiosPatch, axiosPut, axiosDelete, axiosDeleteData, Body.fieldNames, HttpRequest.queryNames, pair_mem_eraseKey, pair_mem_optField, mem_keys_eraseKey, mem_keys_optField, fieldNames_axiosPutRaw, query_axiosPutRaw, axiosPutRaw])))

/-- Path-argument exclusion for the catalog entries of part 7. -/
theorem pathSafePart7 : ∀ op ∈ catalogPart7, ∀ args, ∀ f ∈ op.pathArgs,
    f ∉ ((op.handler args).body.fieldNames) ∧ f ∉ ((op.handler args).queryNames) := by
  intro op hop
  simp only [catalogPart7, List.mem_cons, List.not_mem_nil, or_false] at hop
  rcases hop with rfl|rfl|rfl|rfl|rfl|rfl|rfl|rfl|rfl|rfl|rfl|rfl|rfl|rfl|rfl|rfl|rfl|rfl|rfl|rfl
  all_goals
    intro args f hf
    first
    | exact absurd hf (List.not_mem_nil f)
    | (simp only [List.mem_cons, List.not_mem_nil, or_false] at hf
       (first | (subst hf) | (rcases hf with rfl | rfl)) <;>
         (constructor <;>
           first
           | (simp [createChildTag, createChildTemplate, createMessageTemplate, createTeamTag, createTeammateFolder, createTeammateTag, deleteMessageTemplate, deleteTag, getMessageTemplate, getTag, listChildTemplates, listMessageTemplates, listTagChildren, listTaggedConversations, listTeamFolders, listTeamTags, listTeammateTags, updateMessageTemplate, updateTag, updateTeammate, axiosGetQ, axiosGet, axiosPost, axiosPostEmpty, axiosPatch, axiosPut, axiosDelete, axiosDeleteData, Body.fieldNames, HttpRequest.queryNames, pair_mem_eraseKey, pair_mem_optField, mem_keys_eraseKey, mem_keys_optField, fieldNames_axiosPutRaw, query_axiosPutRaw]; done)
           | (rcases htv : jsGet args ("template") with _ | _ <;>
               simp [htv, createChildTag, createChildTemplate, createMessageTemplate, createTeamTag, createTeammateFolder, createTeammateTag, deleteMessageTemplate, deleteTag, getMessageTemplate, getTag, listChildTemplates, listMessageTemplates, listTagChildren, listTaggedConversations, listTeamFolders, listTeamTags, listTeammateTags, updateMessageTemplate, updateTag, updateTeammate, axiosGetQ, axiosGet, axiosPost, axiosPostEmpty, axiosPatch, axiosPut, axiosDelete, axiosDeleteData, Body.fieldNames, HttpRequest.queryNames, pair_mem_eraseKey, pair_mem_optField, mem_keys_eraseKey, mem_keys_optField, fieldNames_axiosPutRaw, query_axiosPutRaw, axiosPutRaw])))

/-- Path-argument exclusion for the catalog entries of part 8. -/
theorem pathSafePart8 : ∀ op ∈ catalogPart8, ∀ args, ∀ f ∈ op.pathArgs,
    f ∉ ((op.handler args).body.fieldNames) ∧ f ∉ ((op.handler args).queryNames) := by
  intro op hop
  simp only [catalogPart8, List.mem_cons, List.not_mem_nil, or_false] at hop
  rcases hop with rfl|rfl
  all_goals
    intro args f hf
    first
    | exact absurd hf (List.not_mem_nil f)
    | (simp only [List.mem_cons, List.not_mem_nil, or_false] at hf
       (first | (subst hf) | (rcases hf with rfl | rfl)) <;>
         (constructor <;>
           first
           | (simp [listTeammateConversations, listTeammateInboxes, axiosGetQ, axiosGet, axiosPost, axiosPostEmpty, axiosPatch, axiosPut, axiosDelete, axiosDeleteData, Body.fieldNames, HttpRequest.queryNames, pair_mem_eraseKey, pair_mem_optField, mem_keys_eraseKey, mem_keys_optField, fieldNames_axiosPutRaw, query_axiosPutRaw]; done)
           | (rcases htv : jsGet args ("template") with _ | _ <;>
               simp [htv, listTeammateConversations, listTeammateInboxes, axiosGetQ, axiosGet, axiosPost, axiosPostEmpty, axiosPatch, axiosPut, axiosDelete, axiosDeleteData, Body.fieldNames, HttpRequest.queryNames, pair_mem_eraseKey, pair_mem_optField, mem_keys_eraseKey, mem_keys_optField, fieldNames_axiosPutRaw, query_axiosPutRaw, axiosPutRaw])))

/-- Claim C3: for every operation in the catalog and every input, each field the
adapter substitutes into the URL path template is excluded from the
forwarded body and from the query payload. -/
theorem path_fields_excluded : ∀ op ∈ catalog, ∀ args, ∀ f ∈ op.pathArgs,
    f ∉ ((op.handler args).body.fieldNames) ∧ f ∉ ((op.handler args).queryNames) := by
  intro op hop
  simp only [catalog, List.mem_append] at hop
  rcases hop with ((((((hop|hop)|hop)|hop)|hop)|hop)|hop)|hop
  · exact pathSafePart1 op hop
  · exact pathSafePart2 op hop
  · exact pathSafePart3 op hop
  · exact pathSafePart4 op hop
  · exact pathSafePart5 op hop
  · exact pathSafePart6 op hop
  · exact pathSafePart7 op hop
  · exact pathSafePart8 op hop

/-- Witness for C3 at the `get_conversation` entry and a concrete input. -/
theorem path_fields_excluded_witness :
    ("conversation_id") ∉
      ((getConversation (jsGet [(("conversation_id"), Value.str ("cnv_1"))]
          ("conversation_id"))).body.fieldNames) ∧
    ("conversation_id") ∉
      ((getConversation (jsGet [(("conversation_id"), Value.str ("cnv_1"))]
          ("conversation_id"))).queryNames) :=
  path_fields_excluded
    { name := ("get_conversation"), pathArgs := [("conversation_id")],
      handler := fun args => getConversation (jsGet args ("conversation_id")) }
    (by simp [catalog, catalogPart1])
    [(("conversation_id"), Value.str ("cnv_1"))] ("conversation_id") (by decide)
